import Mathlib

/-!
Shallow embedding of `AnkiServer/apps/rest_app.py` (the REST request
dispatcher of anki-sync-server) and proofs about its behaviour.

Conventions of the embedding:
* Python strings are Lean `String`s; character-level operations go through
  `String.data` (the file is Python 2, so strings are byte sequences and the
  paths involved are ASCII).
* Raised Python exceptions are `Except` errors carrying a `PyError`; webob
  turns raised HTTP exceptions into responses (`RestApp.wsgi`), while other
  exceptions propagate to the WSGI server.
* `json.loads` is an external collaborator; it is passed to the dispatcher as
  a `decode : String -> Except String Json` parameter.  `json.dumps` is
  modelled by `Json.dumps` (default separators of the Python encoder).
* `os.path.join` / `os.path.normpath` are modelled faithfully after the
  CPython 2.7 `posixpath` implementations (`pyJoin2`, `normpath`).
-/

/-- Python values that can come out of `json.loads` / go into `json.dumps`.
Numbers are modelled as integers (note and card identifiers are ints). -/
inductive Json where
  | null : Json
  | bool (b : Bool) : Json
  | num (n : Int) : Json
  | str (s : String) : Json
  | arr (elts : List Json) : Json
  | obj (kvs : List (String × Json)) : Json

/-- Join a list of strings with a separator, Python `sep.join(list)`. -/
def strJoin (sep : String) : List String → String
  | [] => ""
  | [s] => s
  | s :: rest => s ++ sep ++ strJoin sep rest

mutual

/-- Model of `json.dumps` with the default separators of the Python 2
`json` module: items joined by a comma and a space, keys and values joined
by a colon and a space. -/
def Json.dumps : Json → String
  | .null => "null"
  | .bool true => "true"
  | .bool false => "false"
  | .num n => toString n
  | .str s => "\"" ++ s ++ "\""
  | .arr xs => "[" ++ strJoin ", " (Json.dumpsList xs) ++ "]"
  | .obj kvs => "\x7b" ++ strJoin ", " (Json.dumpsMembers kvs) ++ "\x7d"

/-- Serialized elements of a JSON array. -/
def Json.dumpsList : List Json → List String
  | [] => []
  | x :: xs => Json.dumps x :: Json.dumpsList xs

/-- Serialized members of a JSON object. -/
def Json.dumpsMembers : List (String × Json) → List String
  | [] => []
  | (k, v) :: rest => ("\"" ++ k ++ "\": " ++ Json.dumps v) :: Json.dumpsMembers rest

end

/-- Python truthiness of a JSON value (`if data.get('preload', False):`). -/
def Json.truthy : Json → Bool
  | .null => false
  | .bool b => b
  | .num n => n != 0
  | .str s => s != ""
  | .arr xs => !xs.isEmpty
  | .obj kvs => !kvs.isEmpty

/-- Discriminator: is this JSON value a JSON object (a Python dict)? -/
def Json.isObj : Json → Bool
  | .obj _ => true
  | _ => false

/-- Name of the Python 2 type of the value produced by `json.loads`,
used in the `AttributeError` message raised by `v.items()`. -/
def pyTypeName : Json → String
  | .null => "NoneType"
  | .bool _ => "bool"
  | .num _ => "int"
  | .str _ => "unicode"
  | .arr _ => "list"
  | .obj _ => "dict"

/-- Python exceptions that can escape the functions of `rest_app.py`.
The first five are the webob HTTP exceptions raised (or returned) by the
source; `wsgify` converts those into responses.  The remaining variants are
ordinary Python exceptions, which `wsgify` does not catch. -/
inductive PyError where
  | httpForbidden : PyError
  | httpMethodNotAllowed (allow : List String) : PyError
  | httpNotFound : PyError
  | httpBadRequest (detail : Option String) : PyError
  | httpInternalServerError : PyError
  | attributeError (msg : String) : PyError
  | indexError (msg : String) : PyError
  | keyError (msg : String) : PyError
  | stringException (msg : String) : PyError
deriving DecidableEq

/-- An HTTP response: status code, body, content type and the contents of
the Allow header (webob sets it from `HTTPMethodNotAllowed(allow=...)`). -/
structure Response where
  status : Nat
  body : String
  contentType : String
  allow : List String
deriving DecidableEq

/-- Whether the exception is a webob `HTTPException` (converted to a
response by `wsgify`) as opposed to an ordinary Python exception. -/
def PyError.isHTTPException : PyError → Bool
  | .httpForbidden => true
  | .httpMethodNotAllowed _ => true
  | .httpNotFound => true
  | .httpBadRequest _ => true
  | .httpInternalServerError => true
  | _ => false

/-- The response webob produces for a raised (or returned) HTTP exception.
Bodies are the fixed webob explanation texts; only `HTTPBadRequest` raised
by `_getCollectionPath` carries a request-dependent detail. -/
def PyError.toResponse : PyError → Response
  | .httpForbidden =>
      ⟨403, "Access was denied to this resource.", "text/html", []⟩
  | .httpMethodNotAllowed allow =>
      ⟨405, "The method is not allowed for this resource.", "text/html", allow⟩
  | .httpNotFound =>
      ⟨404, "The resource could not be found.", "text/html", []⟩
  | .httpBadRequest none =>
      ⟨400, "The server could not comply with the request since it is either malformed or otherwise incorrect.", "text/html", []⟩
  | .httpBadRequest (some d) =>
      ⟨400, d, "text/html", []⟩
  | .httpInternalServerError =>
      ⟨500, "The server has encountered an error while processing your request.", "text/html", []⟩
  | .attributeError m => ⟨500, m, "text/html", []⟩
  | .indexError m => ⟨500, m, "text/html", []⟩
  | .keyError m => ⟨500, m, "text/html", []⟩
  | .stringException m => ⟨500, m, "text/html", []⟩

/-- Python `s.split(sep)` for a one-character separator, at character level:
every occurrence of the separator ends a chunk, empty chunks are kept, and
the empty string splits to one empty chunk. -/
def pySplit (sep : Char) : List Char → List (List Char)
  | [] => [[]]
  | c :: cs =>
    if c = sep then [] :: pySplit sep cs
    else
      match pySplit sep cs with
      | [] => [[c]]
      | seg :: rest => (c :: seg) :: rest

/-- Python `path[1:]` applied when `path[0] == '/'`: drop one leading slash. -/
def stripLead : List Char → List Char
  | '/' :: rest => rest
  | cs => cs

/-- Association-list lookup, modelling Python dict indexing for the
insertion-ordered dictionaries built by this app. -/
def assoc {α : Type} : List (String × α) → String → Option α
  | [], _ => none
  | (k, v) :: rest, key => if k = key then some v else assoc rest key

/-- Replace the value bound to an existing key, modelling in-place update of
a Python dict entry. -/
def assocSet {α : Type} : List (String × α) → String → α → List (String × α)
  | [], _, _ => []
  | (k, v) :: rest, key, val =>
    if k = key then (k, val) :: rest else (k, v) :: assocSet rest key val

/-- The decoded request body: a Python dict with string keys. -/
abbrev Data := List (String × Json)

/-- Python `data.get(key, default)`. -/
def dataGet (data : Data) (k : String) (dflt : Json) : Json :=
  match assoc data k with
  | some v => v
  | none => dflt

/-- An anki note as consumed by `NoteHandler._serialize`: its id, the name
of its model, and its tags. -/
structure Note where
  id : Int
  modelName : String
  tags : List String

/-- The interface of the underlying collection store used by the handlers
embedded here.  The store itself is an excluded collaborator; its operations
are abstract functions.  Identifiers are passed as `Json` because Python
passes note ids through without conversion (ints from `findNotes`, strings
from the URL). -/
structure Collection where
  findNotes : Json → List Int
  getNote : Json → Except String Note

/-- A registered handler: the invocable, and its `hasReturnValue` attribute
when one is set (`hasattr` / default `True` in `_getHandler`). -/
structure Handler where
  run : Collection → Data → List String → Except String (Option Json)
  hasReturnValue : Option Bool

/-- The two-level handler registry `self.handlers`: resource type to
(operation name to handler). -/
abbrev HandlersMap := List (String × List (String × Handler))

/-- An inbound WSGI request as seen by `RestApp.__call__`. -/
structure Request where
  method : String
  path : String
  body : String
  remoteAddr : String
  xForwardedFor : Option String

/-- The dispatcher state.  `data_root` holds the already-absolutized root
(`os.path.abspath(data_root)` from `__init__`).  `collection_manager` is the
Resource Executor collaborator keyed by collection path; the source
constructor obtains a manager but drops it (it never assigns
`self.collection_manager`), so the held reference is modelled per the spec,
which has the collaborator passed in at construction and held by the
dispatcher. -/
structure RestApp where
  data_root : String
  allowed_hosts : String
  handlers : HandlersMap
  collection_manager : String → Collection

/-- The slot table `RestApp.handler_types`, with the scalar entries already
wrapped in singleton lists as the parse loop does. -/
def RestApp.handler_types : List (List String) := [["collection"], ["model", "note", "deck"], ["card"]]

/-- Embedding of `RestApp._checkRequest`: origin allow-list check (the
forwarded-for header, else the peer address), then the POST-only gate. -/
def RestApp.checkRequest (app : RestApp) (req : Request) : Except PyError Unit :=
  if app.allowed_hosts ≠ "*" ∧ (req.xForwardedFor.getD req.remoteAddr) ≠ app.allowed_hosts then
    .error .httpForbidden
  else if req.method ≠ "POST" then
    .error (.httpMethodNotAllowed ["POST"])
  else
    .ok ()

/-- The slot-walking loop of `RestApp._parsePath`: walk the slot table,
consuming a type segment and (when present) an identifier segment per slot;
stop on slot exhaustion, segment exhaustion, a non-matching segment, or when
fewer than two segments remain after consuming a pair.  Returns the handler
type found so far, the identifiers, and the unconsumed segments. -/
def loopSlots : List (List String) → Option String → List String → List String →
    Option String × List String × List String
  | [], ht, ids, parts => (ht, ids, parts)
  | slot :: slots, ht, ids, parts =>
    match parts with
    | [] => (ht, ids, [])
    | p :: ps =>
      if p ∈ slot then
        match ps with
        | [] => (some p, ids, [])
        | q :: qs =>
          if qs.length < 2 then (some p, ids ++ [q], qs)
          else loopSlots slots (some p) (ids ++ [q]) qs
      else (ht, ids, p :: ps)

/-- The tail of `RestApp._parsePath` after the URL has been split into
segments: run the slot loop, apply the sanity check, and pick the operation
name (`'index'` when no segment remains). -/
def parsePathParts (parts : List String) : Except PyError (Option String × String × List String) :=
  match loopSlots RestApp.handler_types none [] parts with
  | (ht, ids, rest) =>
    if rest.length > 1 ∨ ids = [] then .error .httpNotFound
    else
      match rest with
      | [] => .ok (ht, "index", ids)
      | p :: _ => .ok (ht, p, ids)

/-- Embedding of `RestApp._parsePath`: reject `''` and `'/'`, strip one
leading slash, split on `'/'`, and resolve the segments. -/
def RestApp.parsePath (path : String) : Except PyError (Option String × String × List String) :=
  if path = "" ∨ path = "/" then .error .httpNotFound
  else parsePathParts ((pySplit '/' (stripLead path.data)).map String.mk)

/-- CPython 2.7 `posixpath.join` for two components. -/
def pyJoin2 (a b : String) : String :=
  if b.data.take 1 = ['/'] then b
  else if a = "" ∨ a.data.getLast? = some '/' then a ++ b
  else a ++ "/" ++ b

/-- One step of the component scan inside `posixpath.normpath`:
`slashes` is the number of initial slashes of the whole path. -/
def normStep (slashes : Nat) (acc : List String) (comp : String) : List String :=
  if comp = "" ∨ comp = "." then acc
  else if comp ≠ ".." ∨ (slashes = 0 ∧ acc = []) ∨ acc.getLast? = some ".." then acc ++ [comp]
  else if acc ≠ [] then acc.dropLast
  else acc

/-- CPython 2.7 `posixpath.normpath`: collapse empty and `.` components,
resolve `..` against preceding components, preserve one or two initial
slashes, and return `.` for an empty result. -/
def normpath (p : String) : String :=
  if p = "" then "."
  else
    let slashes : Nat :=
      if p.data.take 3 = ['/', '/', '/'] then 1
      else if p.data.take 2 = ['/', '/'] then 2
      else if p.data.take 1 = ['/'] then 1
      else 0
    let comps := (pySplit '/' p.data).map String.mk
    let newComps := comps.foldl (normStep slashes) []
    let out := String.mk (List.replicate slashes '/') ++ strJoin "/" newComps
    if out = "" then "." else out

/-- Embedding of `RestApp._getCollectionPath`: normalize
`join(data_root, collection_id, 'collection.anki2')` and require that the
first `len(data_root)` characters of the result equal `data_root`. -/
def RestApp.getCollectionPath (data_root collection_id : String) : Except PyError String :=
  let path := normpath (pyJoin2 (pyJoin2 data_root collection_id) "collection.anki2")
  if String.mk (path.data.take data_root.data.length) ≠ data_root then
    .error (.httpBadRequest (some ("\"" ++ collection_id ++ "\" is not a valid collection")))
  else
    .ok path

/-- Embedding of `RestApp._getHandler`: two dict lookups (either missing key
raises `KeyError`, caught and turned into `HTTPNotFound`), then the
`hasReturnValue` attribute with default `True`.  The type is `Option String`
because `_parsePath` initializes `handler_type = None`. -/
def RestApp.getHandler (handlers : HandlersMap) (ty : Option String) (name : String) :
    Except PyError (Handler × Bool) :=
  match ty with
  | none => .error .httpNotFound
  | some t =>
    match assoc handlers t with
    | none => .error .httpNotFound
    | some sub =>
      match assoc sub name with
      | none => .error .httpNotFound
      | some h => .ok (h, h.hasReturnValue.getD true)

/-- Embedding of `RestApp.add_handler`: raising a plain string is an error in
this Python dialect either way (a string exception in 2.5, a `TypeError` in
2.6/2.7); the registration is refused before the assignment happens. -/
def RestApp.add_handler (handlers : HandlersMap) (ty name : String) (h : Handler) :
    Except PyError HandlersMap :=
  match assoc handlers ty with
  | none => .error (.keyError ty)
  | some sub =>
    if (assoc sub name).isSome then
      .error (.stringException "Handler already for %(type)s/%(name)s exists!")
    else
      .ok (assocSet handlers ty (sub ++ [(name, h)]))

/-- Embedding of `RestApp._parseRequestBody`.  `decode` stands for
`json.loads` (an excluded collaborator).  A decode failure is logged and
turned into `HTTPBadRequest()`; a successful decode is run through
`dict([(str(k), v) for k, v in data.items()])`, which raises
`AttributeError` when the decoded value is not a dict. -/
def RestApp.parseRequestBody (decode : String → Except String Json) (body : String) :
    Except PyError Data :=
  match decode body with
  | .error _ => .error (.httpBadRequest none)
  | .ok j =>
    match j with
    | .obj kvs => .ok kvs
    | other => .error (.attributeError ("\x27" ++ pyTypeName other ++ "\x27 object has no attribute \x27items\x27"))

/-- Modelled from the spec: the Resource Executor collaborator
(`CollectionManager` / `CollectionThread.execute` in `AnkiServer.threading`,
which is not under `src/`).  Per the spec it runs the operation serialized
on the collection and returns the operation result or surfaces its failure;
when `produces_output` is false nothing is returned, so the caller sees
null. -/
def collectionExecute (col : Collection) (handler : Handler) (data : Data) (ids : List String)
    (hasReturnValue : Bool) : Except String (Option Json) :=
  match handler.run col data ids with
  | .error e => .error e
  | .ok out => if hasReturnValue then .ok out else .ok none

/-- Embedding of `RestApp.__call__` before the `wsgify` wrapper: gate, path
resolution, collection path, handler lookup, body decode, then execution
with result translation.  Raised exceptions travel in the `Except` error;
the `HTTPInternalServerError` of the exception branch is returned as a
response, as in the source. -/
def RestApp.call (app : RestApp) (decode : String → Except String Json) (req : Request) :
    Except PyError Response :=
  match app.checkRequest req with
  | .error e => .error e
  | .ok _ =>
    match RestApp.parsePath req.path with
    | .error e => .error e
    | .ok (ty, name, ids) =>
      match ids with
      | [] => .error (.indexError "list index out of range")
      | id0 :: _ =>
        match RestApp.getCollectionPath app.data_root id0 with
        | .error e => .error e
        | .ok collection_path =>
          match RestApp.getHandler app.handlers ty name with
          | .error e => .error e
          | .ok (handler, hasReturnValue) =>
            match RestApp.parseRequestBody decode req.body with
            | .error e => .error e
            | .ok data =>
              let col := app.collection_manager collection_path
              match collectionExecute col handler data ids hasReturnValue with
              | .error _ => .ok PyError.httpInternalServerError.toResponse
              | .ok none => .ok ⟨200, "", "text/plain", []⟩
              | .ok (some output) => .ok ⟨200, Json.dumps output, "application/json", []⟩

/-- The `wsgify` wrapper: raised webob HTTP exceptions become their
responses; any other exception propagates to the WSGI server. -/
def RestApp.wsgi (app : RestApp) (decode : String → Except String Json) (req : Request) :
    Except PyError Response :=
  match app.call decode req with
  | .ok r => .ok r
  | .error e => if e.isHTTPException then .ok e.toResponse else .error e

/-- Embedding of `NoteHandler._serialize`. -/
def NoteHandler.serialize (note : Note) : Json :=
  Json.obj [("id", Json.num note.id), ("model", Json.str note.modelName),
            ("tags", Json.str (strJoin " " note.tags))]

/-- Embedding of `CollectionHandler.find_notes`: query the store, then
either preload full notes or return bare id objects. -/
def CollectionHandler.find_notes (col : Collection) (data : Data) (_ids : List String) :
    Except String (Option Json) :=
  let query := dataGet data "query" (.str "")
  let ids := col.findNotes query
  if (dataGet data "preload" (.bool false)).truthy then
    match ids.mapM (fun id => (col.getNote (.num id)).map NoteHandler.serialize) with
    | .error e => .error e
    | .ok nodes => .ok (some (.arr nodes))
  else
    .ok (some (.arr (ids.map (fun id => Json.obj [("id", Json.num id)]))))

/-- Embedding of `NoteHandler.index`: `col.getNote(ids[1])`, serialized. -/
def NoteHandler.index (col : Collection) (_data : Data) (ids : List String) :
    Except String (Option Json) :=
  match ids.get? 1 with
  | none => .error "IndexError: list index out of range"
  | some nid =>
    match col.getNote (.str nid) with
    | .error e => .error e
    | .ok note => .ok (some (NoteHandler.serialize note))

/-- The registry entry `add_handler_group` produces for
`CollectionHandler.find_notes`: the group default `hasReturnValue = True` is
attached by `_RestHandlerWrapper`. -/
def findNotesHandler : Handler := ⟨CollectionHandler.find_notes, some true⟩

/-- The registry entry for `NoteHandler.index` (group default `True`). -/
def noteIndexHandler : Handler := ⟨NoteHandler.index, some true⟩

/-- Descendant test used to state the jail property: the path lives strictly
below the root directory. -/
def isDescendantOf (root p : String) : Bool :=
  (root.data ++ ['/']).isPrefixOf p.data

/-- A registry with the five resource types of `handler_types` and no
handlers, as `__init__` builds before `add_handler_group` runs. -/
def emptyHandlers : HandlersMap :=
  [("collection", []), ("model", []), ("note", []), ("deck", []), ("card", [])]

/-- A small registry fixture holding the two handlers embedded here under
the names and types `add_handler_group` gives them. -/
def demoHandlers : HandlersMap :=
  [("collection", [("find_notes", findNotesHandler)]),
   ("model", []),
   ("note", [("index", noteIndexHandler)]),
   ("deck", []),
   ("card", [])]

/-- The registry after registering `find_notes` once into `emptyHandlers`. -/
def handlersAfterReg : HandlersMap :=
  [("collection", [("find_notes", findNotesHandler)]),
   ("model", []), ("note", []), ("deck", []), ("card", [])]

/-- An app over the fixture registry with data root `/data`, all hosts
allowed, and every collection path served by the given store. -/
def mkApp (col : Collection) : RestApp :=
  ⟨"/data", "*", demoHandlers, fun _ => col⟩

/-- A store in which the query of the scenario matches notes 3 and 7 and
note lookup by id fails. -/
def colC3 : Collection :=
  ⟨fun _ => [3, 7], fun _ => .error "no such note"⟩

/-- Model of `json.loads` on the scenario body: it decodes to the object
with the single key `query`. -/
def decodeQueryTagFoo : String → Except String Json :=
  fun _ => .ok (.obj [("query", .str "tag:foo")])

/-- Model of `json.loads` on a malformed body: decoding fails. -/
def decodeMalformed : String → Except String Json :=
  fun _ => .error "Expecting value: line 1 column 1 (char 0)"

/-- Model of `json.loads` on the body `[]`: valid JSON, not an object. -/
def decodeNonObject : String → Except String Json :=
  fun _ => .ok (.arr [])

/-- Model of `json.loads` on the body of an empty JSON object. -/
def decodeEmptyObj : String → Except String Json :=
  fun _ => .ok (.obj [])

/-- The request of the C3 scenario, path exactly as the spec writes it. -/
def reqScenario : Request :=
  ⟨"POST", "/collection/deck1/note/find_notes", "\x7b\"query\": \"tag:foo\"\x7d", "127.0.0.1", none⟩

/-- The same scenario against the path that actually names the collection
operation `find_notes`. -/
def reqFindNotes : Request :=
  ⟨"POST", "/collection/deck1/find_notes", "\x7b\"query\": \"tag:foo\"\x7d", "127.0.0.1", none⟩

/-- A POST whose path names an unknown operation and whose body is
malformed JSON. -/
def reqUnknownOp : Request :=
  ⟨"POST", "/collection/deck1/no_such_op", "\x7bmalformed", "127.0.0.1", none⟩

/-- A POST whose body is the non-object JSON value `[]`. -/
def reqNonObject : Request :=
  ⟨"POST", "/collection/deck1/find_notes", "[]", "127.0.0.1", none⟩

/-- A GET on a path that is guaranteed to fail resolution. -/
def reqGet : Request :=
  ⟨"GET", "/definitely/not/a/resolvable/path", "", "127.0.0.1", none⟩

/-- A POST resolving to the note index operation with note id 5. -/
def reqNoteIndex : Request :=
  ⟨"POST", "/collection/deck1/note/5", "\x7b\x7d", "127.0.0.1", none⟩

/-- Updating an existing key of an association list makes lookup return the
new value. -/
theorem assoc_assocSet {α : Type} (m : List (String × α)) (k : String) (v : α)
    (h : (assoc m k).isSome) : assoc (assocSet m k v) k = some v := by
  induction m with
  | nil => simp [assoc] at h
  | cons hd tl ih =>
    obtain ⟨k0, v0⟩ := hd
    by_cases hk : k0 = k
    · subst hk; simp [assoc, assocSet]
    · simp [assoc, assocSet, hk] at h ⊢
      exact ih h

/-- Appending a binding for an absent key makes lookup return it. -/
theorem assoc_append_single {α : Type} (l : List (String × α)) (k : String) (v : α)
    (h : assoc l k = none) : assoc (l ++ [(k, v)]) k = some v := by
  induction l with
  | nil => simp [assoc]
  | cons hd tl ih =>
    obtain ⟨k0, v0⟩ := hd
    by_cases hk : k0 = k
    · simp [assoc, hk] at h
    · simp [assoc, hk] at h ⊢
      exact ih h

/-- C1: the Resource Locator jail fails on the code.  With data root
`/data`, the collection identifier `../datax` — which contains a `..`
segment — is accepted by `_getCollectionPath`, and the resolved path
`/datax/collection.anki2` is not a descendant of the root: the prefix check
compares raw characters without requiring a following separator, so a
sibling directory whose name extends the root name escapes the jail the
code's own comment promises to enforce. -/
theorem c1_jail_escape :
    RestApp.getCollectionPath "/data" "../datax" = .ok "/datax/collection.anki2" ∧
    isDescendantOf "/data" "/datax/collection.anki2" = false :=
  ⟨rfl, rfl⟩

/-- C2 counterexample: a POST passing gate, path resolution and resource
location, whose path names the unknown operation `no_such_op` and whose
body is malformed JSON, returns 404 — not the 400 the claim requires —
because `__call__` looks the handler up before decoding the body. -/
theorem c2_counterexample :
    RestApp.wsgi (mkApp colC3) decodeMalformed reqUnknownOp = .ok PyError.httpNotFound.toResponse ∧
    PyError.httpNotFound.toResponse.status = 404 ∧
    PyError.httpNotFound.toResponse.status ≠ 400 :=
  ⟨rfl, rfl, by decide⟩

/-- C2 amended: the dispatcher looks the operation up in the registry
before decoding the body; whenever gate, path resolution and resource
location succeed and the registry lookup fails, the response is 404,
whatever the body and whatever the JSON decoder does with it. -/
theorem c2_lookup_precedes_body_decode (app : RestApp)
    (decode : String → Except String Json) (req : Request)
    (ty : Option String) (name : String) (ids : List String)
    (id0 : String) (tl : List String) (cpath : String)
    (hgate : app.checkRequest req = .ok ())
    (hpath : RestApp.parsePath req.path = .ok (ty, name, ids))
    (hids : ids = id0 :: tl)
    (hloc : RestApp.getCollectionPath app.data_root id0 = .ok cpath)
    (hlookup : RestApp.getHandler app.handlers ty name = .error .httpNotFound) :
    app.wsgi decode req = .ok PyError.httpNotFound.toResponse := by
  subst hids
  simp [RestApp.wsgi, RestApp.call, hgate, hpath, hloc, hlookup, PyError.isHTTPException]

/-- C2 witness: the amended theorem applied to the concrete counterexample
request. -/
theorem c2_witness :
    RestApp.wsgi (mkApp colC3) decodeMalformed reqUnknownOp = .ok PyError.httpNotFound.toResponse :=
  c2_lookup_precedes_body_decode (mkApp colC3) decodeMalformed reqUnknownOp
    (some "collection") "no_such_op" ["deck1"] "deck1" [] "/data/deck1/collection.anki2"
    rfl rfl rfl rfl rfl

/-- C3 counterexample: the scenario path `/collection/deck1/note/find_notes`
does not reach `CollectionHandler.find_notes` at all — the resolver consumes
`note` as a resource type and `find_notes` as its identifier, dispatching to
the note `index` operation, which here fails note lookup and yields 500, not
the claimed 200 array. -/
theorem c3_counterexample :
    RestApp.parsePath "/collection/deck1/note/find_notes" =
      .ok (some "note", "index", ["deck1", "find_notes"]) ∧
    RestApp.wsgi (mkApp colC3) decodeQueryTagFoo reqScenario =
      .ok PyError.httpInternalServerError.toResponse ∧
    PyError.httpInternalServerError.toResponse.status = 500 :=
  ⟨rfl, rfl, rfl⟩

/-- C3 amended: with the path `/collection/deck1/find_notes` (which is how
the grammar addresses the collection operation `find_notes`), a POST whose
body decodes to the object with `query` bound to `tag:foo` and no `preload`
key returns 200 with the JSON array of one id object per note id produced by
the store's `findNotes`, in the store's order — for every store. -/
theorem c3_find_notes_scenario (f : Json → List Int) (g : Json → Except String Note) :
    RestApp.wsgi (mkApp ⟨f, g⟩) decodeQueryTagFoo reqFindNotes =
      .ok ⟨200,
           Json.dumps (.arr ((f (.str "tag:foo")).map (fun id => Json.obj [("id", Json.num id)]))),
           "application/json", []⟩ :=
  rfl

/-- C5: translation of a successful execution.  When the registry flag
`produces_output` is false, or the executor result is null, the response is
an empty 200 with a plain-text content type; a non-null result is
JSON-encoded into a 200 with a JSON content type. -/
theorem c5_response_translation (app : RestApp)
    (decode : String → Except String Json) (req : Request)
    (ty : Option String) (name : String) (ids : List String)
    (id0 : String) (tl : List String) (cpath : String)
    (handler : Handler) (hasRV : Bool) (data : Data) (out : Option Json)
    (hgate : app.checkRequest req = .ok ())
    (hpath : RestApp.parsePath req.path = .ok (ty, name, ids))
    (hids : ids = id0 :: tl)
    (hloc : RestApp.getCollectionPath app.data_root id0 = .ok cpath)
    (hhand : RestApp.getHandler app.handlers ty name = .ok (handler, hasRV))
    (hbody : RestApp.parseRequestBody decode req.body = .ok data)
    (hrun : handler.run (app.collection_manager cpath) data ids = .ok out) :
    ((hasRV = false ∨ out = none) → app.wsgi decode req = .ok ⟨200, "", "text/plain", []⟩) ∧
    (∀ v, hasRV = true → out = some v →
      app.wsgi decode req = .ok ⟨200, Json.dumps v, "application/json", []⟩) := by
  subst hids
  constructor
  · rintro (h | h) <;> subst h <;>
      simp [RestApp.wsgi, RestApp.call, hgate, hpath, hloc, hhand, hbody,
            collectionExecute, hrun]
  · rintro v h1 h2
    subst h1; subst h2
    simp [RestApp.wsgi, RestApp.call, hgate, hpath, hloc, hhand, hbody,
          collectionExecute, hrun]

/-- C5 witness: the translation theorem applied to the concrete
`find_notes` request, whose execution result is the non-null array for
notes 3 and 7. -/
theorem c5_witness :
    RestApp.wsgi (mkApp colC3) decodeQueryTagFoo reqFindNotes =
      .ok ⟨200,
           Json.dumps (Json.arr [Json.obj [("id", Json.num 3)], Json.obj [("id", Json.num 7)]]),
           "application/json", []⟩ :=
  (c5_response_translation (mkApp colC3) decodeQueryTagFoo reqFindNotes
      (some "collection") "find_notes" ["deck1"] "deck1" [] "/data/deck1/collection.anki2"
      findNotesHandler true [("query", .str "tag:foo")]
      (some (Json.arr [Json.obj [("id", Json.num 3)], Json.obj [("id", Json.num 7)]]))
      rfl rfl rfl rfl rfl rfl rfl).2
    (Json.arr [Json.obj [("id", Json.num 3)], Json.obj [("id", Json.num 7)]]) rfl rfl

/-- C6: on any request whose method is not POST and which does not violate
the origin allow-list, the dispatcher answers 405 advertising POST as the
only allowed method — for every path, including paths that would fail
resolution, since the gate runs first. -/
theorem c6_method_gate (app : RestApp) (decode : String → Except String Json) (req : Request)
    (horigin : ¬ (app.allowed_hosts ≠ "*" ∧
      (req.xForwardedFor.getD req.remoteAddr) ≠ app.allowed_hosts))
    (hmethod : req.method ≠ "POST") :
    app.wsgi decode req = .ok (PyError.httpMethodNotAllowed ["POST"]).toResponse ∧
    (PyError.httpMethodNotAllowed ["POST"]).toResponse.status = 405 ∧
    (PyError.httpMethodNotAllowed ["POST"]).toResponse.allow = ["POST"] := by
  refine ⟨?_, rfl, rfl⟩
  simp [RestApp.wsgi, RestApp.call, RestApp.checkRequest, horigin, hmethod,
        PyError.isHTTPException]

/-- C6 witness: a GET on an unresolvable path still gets 405, not 404. -/
theorem c6_witness :
    RestApp.wsgi (mkApp colC3) decodeMalformed reqGet =
      .ok (PyError.httpMethodNotAllowed ["POST"]).toResponse :=
  (c6_method_gate (mkApp colC3) decodeMalformed reqGet (by decide) (by decide)).1

/-- C7: registering a `(type, name)` pair that is already present raises the
registration error of `add_handler`, and the registry still resolves the
pair to the handler registered first. -/
theorem c7_registry_unique (handlers : HandlersMap) (ty name : String)
    (sub : List (String × Handler)) (h1 h2 : Handler) (handlers2 : HandlersMap)
    (hty : assoc handlers ty = some sub)
    (hfresh : assoc sub name = none)
    (hreg : RestApp.add_handler handlers ty name h1 = .ok handlers2) :
    RestApp.add_handler handlers2 ty name h2 =
      .error (.stringException "Handler already for %(type)s/%(name)s exists!") ∧
    RestApp.getHandler handlers2 (some ty) name = .ok (h1, h1.hasReturnValue.getD true) := by
  have h2eq : handlers2 = assocSet handlers ty (sub ++ [(name, h1)]) := by
    simp [RestApp.add_handler, hty, hfresh] at hreg
    exact hreg.symm
  have hA : assoc handlers2 ty = some (sub ++ [(name, h1)]) := by
    rw [h2eq]
    exact assoc_assocSet handlers ty _ (by rw [hty]; rfl)
  have hB : assoc (sub ++ [(name, h1)]) name = some h1 :=
    assoc_append_single sub name h1 hfresh
  constructor
  · simp [RestApp.add_handler, hA, hB]
  · simp [RestApp.getHandler, hA, hB]

/-- C7 witness: registering `find_notes` on the collection type twice; the
second registration fails and lookup still yields the first handler. -/
theorem c7_witness :
    RestApp.add_handler handlersAfterReg "collection" "find_notes" noteIndexHandler =
      .error (.stringException "Handler already for %(type)s/%(name)s exists!") ∧
    RestApp.getHandler handlersAfterReg (some "collection") "find_notes" =
      .ok (findNotesHandler, findNotesHandler.hasReturnValue.getD true) :=
  c7_registry_unique emptyHandlers "collection" "find_notes" [] findNotesHandler
    noteIndexHandler handlersAfterReg rfl rfl rfl

/-- C8: when the submitted operation fails with any exception, the
dispatcher returns the fixed 500 response of `HTTPInternalServerError` —
the same response for every exception, with the constant webob explanation
as its body and no exception detail — and never re-raises into the HTTP
layer. -/
theorem c8_opaque_internal_error (app : RestApp)
    (decode : String → Except String Json) (req : Request)
    (ty : Option String) (name : String) (ids : List String)
    (id0 : String) (tl : List String) (cpath : String)
    (handler : Handler) (hasRV : Bool) (data : Data) (e : String)
    (hgate : app.checkRequest req = .ok ())
    (hpath : RestApp.parsePath req.path = .ok (ty, name, ids))
    (hids : ids = id0 :: tl)
    (hloc : RestApp.getCollectionPath app.data_root id0 = .ok cpath)
    (hhand : RestApp.getHandler app.handlers ty name = .ok (handler, hasRV))
    (hbody : RestApp.parseRequestBody decode req.body = .ok data)
    (hrun : handler.run (app.collection_manager cpath) data ids = .error e) :
    app.wsgi decode req = .ok PyError.httpInternalServerError.toResponse ∧
    PyError.httpInternalServerError.toResponse =
      ⟨500, "The server has encountered an error while processing your request.",
       "text/html", []⟩ := by
  subst hids
  refine ⟨?_, rfl⟩
  simp [RestApp.wsgi, RestApp.call, hgate, hpath, hloc, hhand, hbody,
        collectionExecute, hrun]

/-- C8 witness: the note index operation fails note lookup; the response is
the opaque 500. -/
theorem c8_witness :
    RestApp.wsgi (mkApp colC3) decodeEmptyObj reqNoteIndex =
      .ok PyError.httpInternalServerError.toResponse :=
  (c8_opaque_internal_error (mkApp colC3) decodeEmptyObj reqNoteIndex
      (some "note") "index" ["deck1", "5"] "deck1" ["5"] "/data/deck1/collection.anki2"
      noteIndexHandler true [] "no such note"
      rfl rfl rfl rfl rfl rfl rfl).1

/-- C10: a body that decodes to a JSON value other than an object makes the
key-stringification step of `_parseRequestBody` raise `AttributeError`,
which is not an HTTP exception and is not caught anywhere in `__call__`, so
the request escapes to the WSGI server instead of receiving the 400 of the
body-decode contract. -/
theorem c10_nonobject_body_escapes (app : RestApp)
    (decode : String → Except String Json) (req : Request)
    (ty : Option String) (name : String) (ids : List String)
    (id0 : String) (tl : List String) (cpath : String)
    (handler : Handler) (hasRV : Bool) (j : Json)
    (hgate : app.checkRequest req = .ok ())
    (hpath : RestApp.parsePath req.path = .ok (ty, name, ids))
    (hids : ids = id0 :: tl)
    (hloc : RestApp.getCollectionPath app.data_root id0 = .ok cpath)
    (hhand : RestApp.getHandler app.handlers ty name = .ok (handler, hasRV))
    (hdec : decode req.body = .ok j)
    (hobj : j.isObj = false) :
    app.wsgi decode req =
      .error (.attributeError ("\x27" ++ pyTypeName j ++ "\x27 object has no attribute \x27items\x27")) := by
  subst hids
  have hbody : RestApp.parseRequestBody decode req.body =
      .error (.attributeError ("\x27" ++ pyTypeName j ++ "\x27 object has no attribute \x27items\x27")) := by
    cases j <;> simp_all [RestApp.parseRequestBody, Json.isObj]
  simp [RestApp.wsgi, RestApp.call, hgate, hpath, hloc, hhand, hbody,
        PyError.isHTTPException]

/-- C10 witness: the body `[]` decodes to a JSON array; the request ends in
a propagated `AttributeError`, not a 400 response. -/
theorem c10_witness :
    RestApp.wsgi (mkApp colC3) decodeNonObject reqNonObject =
      .error (.attributeError "\x27list\x27 object has no attribute \x27items\x27") :=
  c10_nonobject_body_escapes (mkApp colC3) decodeNonObject reqNonObject
    (some "collection") "find_notes" ["deck1"] "deck1" [] "/data/deck1/collection.anki2"
    findNotesHandler true (.arr [])
    rfl rfl rfl rfl rfl rfl rfl

/-- Appending strings appends their character data. -/
theorem str_data_append (a b : String) : (a ++ b).data = a.data ++ b.data := rfl

/-- Path construction for the grammar round-trip properties: a leading
slash followed by the segments joined with slashes, as the URL grammar of
the spec builds paths. -/
def buildPath (segs : List String) : String := "/" ++ strJoin "/" segs

/-- Splitting never produces an empty chunk list. -/
theorem pySplit_ne_nil (sep : Char) (cs : List Char) : pySplit sep cs ≠ [] := by
  induction cs with
  | nil => simp [pySplit]
  | cons c cs ih =>
    by_cases h : c = sep
    · simp [pySplit, h]
    · simp only [pySplit, if_neg h]
      cases hs : pySplit sep cs with
      | nil => simp
      | cons a l => simp

/-- A chunk free of the separator splits to itself. -/
theorem pySplit_no_sep (sep : Char) (cs : List Char) (h : sep ∉ cs) :
    pySplit sep cs = [cs] := by
  induction cs with
  | nil => rfl
  | cons c cs ih =>
    have hc : c ≠ sep := fun e => h (e ▸ List.mem_cons_self c cs)
    have hcs : sep ∉ cs := fun m => h (List.mem_cons_of_mem _ m)
    simp [pySplit, hc, ih hcs]

/-- Splitting past a separator-free chunk peels it off. -/
theorem pySplit_sep_append (sep : Char) (xs rest : List Char) (h : sep ∉ xs) :
    pySplit sep (xs ++ sep :: rest) = xs :: pySplit sep rest := by
  induction xs with
  | nil => simp [pySplit]
  | cons c cs ih =>
    have hc : c ≠ sep := fun e => h (e ▸ List.mem_cons_self c cs)
    have hcs : sep ∉ cs := fun m => h (List.mem_cons_of_mem _ m)
    simp only [List.cons_append, pySplit, if_neg hc, List.append_eq, ih hcs]

/-- The join of a nonempty segment list starts with the first segment. -/
theorem strJoin_cons_data (s : String) (rest : List String) :
    ∃ t, (strJoin "/" (s :: rest)).data = s.data ++ t := by
  cases rest with
  | nil => exact ⟨[], by simp [strJoin]⟩
  | cons b bs =>
    refine ⟨'/' :: (strJoin "/" (b :: bs)).data, ?_⟩
    show ((s ++ "/") ++ strJoin "/" (b :: bs)).data = _
    rw [str_data_append, str_data_append]
    simp

/-- Splitting the slash-join of slash-free segments recovers the
segments. -/
theorem pySplit_join (segs : List String) (h : ∀ s ∈ segs, '/' ∉ s.data)
    (hne : segs ≠ []) :
    pySplit '/' (strJoin "/" segs).data = segs.map String.data := by
  induction segs with
  | nil => exact absurd rfl hne
  | cons s rest ih =>
    cases rest with
    | nil =>
      simpa [strJoin] using pySplit_no_sep '/' s.data (h s (List.mem_cons_self _ _))
    | cons b bs =>
      have hs : ('/' : Char) ∉ s.data := h s (List.mem_cons_self _ _)
      have hrest : ∀ x ∈ b :: bs, ('/' : Char) ∉ x.data :=
        fun x hx => h x (List.mem_cons_of_mem _ hx)
      have hdata : (strJoin "/" (s :: b :: bs)).data =
          s.data ++ '/' :: (strJoin "/" (b :: bs)).data := by
        show ((s ++ "/") ++ strJoin "/" (b :: bs)).data = _
        rw [str_data_append, str_data_append]
        simp
      rw [hdata, pySplit_sep_append '/' _ _ hs, ih hrest (by simp)]
      simp

/-- Rebuilding strings from the character data of strings is the
identity. -/
theorem map_mk_data (segs : List String) : (segs.map String.data).map String.mk = segs := by
  rw [List.map_map]
  have : (String.mk ∘ String.data) = id := funext fun s => rfl
  rw [this, List.map_id]

/-- Dropping the leading slash. -/
theorem stripLead_cons (l : List Char) : stripLead ('/' :: l) = l := rfl

/-- Resolving a constructed path is resolving its segments: for slash-free
segments whose first segment is nonempty, `_parsePath` on the built path
runs the slot walk directly on the segment list. -/
theorem parsePath_buildPath (s : String) (rest : List String)
    (hhead : s.data ≠ [])
    (h : ∀ x ∈ s :: rest, '/' ∉ x.data) :
    RestApp.parsePath (buildPath (s :: rest)) = parsePathParts (s :: rest) := by
  have hdata : (buildPath (s :: rest)).data = '/' :: (strJoin "/" (s :: rest)).data := by
    rw [buildPath, str_data_append]
    rfl
  have hne : buildPath (s :: rest) ≠ "" := by
    intro hx
    have := congrArg String.data hx
    rw [hdata] at this
    simp at this
  have hne2 : buildPath (s :: rest) ≠ "/" := by
    intro hx
    have hd := congrArg String.data hx
    rw [hdata] at hd
    have : (strJoin "/" (s :: rest)).data = [] := by
      have h2 : ('/' : Char) :: (strJoin "/" (s :: rest)).data = ['/'] := hd
      exact (List.cons_eq_cons.mp h2).2
    obtain ⟨t, ht⟩ := strJoin_cons_data s rest
    rw [ht] at this
    rcases List.append_eq_nil.mp this with ⟨h1, _⟩
    exact hhead h1
  rw [RestApp.parsePath, if_neg (by push_neg; exact ⟨hne, hne2⟩)]
  congr 1
  rw [hdata, stripLead_cons, pySplit_join _ h (by simp), map_mk_data]

/-- C4: the path grammar round-trips.  For segments free of the separator,
building a path from the nested grammar combinations — `collection/x`,
optionally `t2/y` with `t2` one of `model`, `note`, `deck`, optionally
`card/z` — followed by a trailing operation segment, and resolving it,
yields exactly the deepest type consumed, that operation name, and the
identifiers in order. -/
theorem c4_path_round_trip (x y z op t2 : String)
    (hx : '/' ∉ x.data) (hy : '/' ∉ y.data) (hz : '/' ∉ z.data) (hop : '/' ∉ op.data)
    (ht2 : t2 ∈ ["model", "note", "deck"]) :
    RestApp.parsePath (buildPath ["collection", x, op]) = .ok (some "collection", op, [x]) ∧
    RestApp.parsePath (buildPath ["collection", x, t2, y, op]) = .ok (some t2, op, [x, y]) ∧
    RestApp.parsePath (buildPath ["collection", x, t2, y, "card", z, op]) =
      .ok (some "card", op, [x, y, z]) := by
  have hcol : ('/' : Char) ∉ "collection".data := by decide
  have hcard : ('/' : Char) ∉ "card".data := by decide
  have ht2' : ('/' : Char) ∉ t2.data := by
    simp only [List.mem_cons, List.not_mem_nil, or_false] at ht2
    rcases ht2 with rfl | rfl | rfl <;> decide
  have ht2m : t2 ∈ ["model", "note", "deck"] := ht2
  refine ⟨?_, ?_, ?_⟩
  · rw [parsePath_buildPath "collection" [x, op] (by decide) ?_]
    · simp [parsePathParts, loopSlots, RestApp.handler_types]
    · intro u hu
      simp only [List.mem_cons, List.not_mem_nil, or_false] at hu
      rcases hu with rfl | rfl | rfl
      exacts [hcol, hx, hop]
  · rw [parsePath_buildPath "collection" [x, t2, y, op] (by decide) ?_]
    · simp [parsePathParts, loopSlots, RestApp.handler_types, ht2m]
    · intro u hu
      simp only [List.mem_cons, List.not_mem_nil, or_false] at hu
      rcases hu with rfl | rfl | rfl | rfl | rfl
      exacts [hcol, hx, ht2', hy, hop]
  · rw [parsePath_buildPath "collection" [x, t2, y, "card", z, op] (by decide) ?_]
    · simp [parsePathParts, loopSlots, RestApp.handler_types, ht2m]
    · intro u hu
      simp only [List.mem_cons, List.not_mem_nil, or_false] at hu
      rcases hu with rfl | rfl | rfl | rfl | rfl | rfl | rfl
      exacts [hcol, hx, ht2', hy, hcard, hz, hop]

/-- C4 witness: the round trip at concrete segments, one instance per
depth. -/
theorem c4_witness :
    RestApp.parsePath (buildPath ["collection", "X", "stats"]) =
      .ok (some "collection", "stats", ["X"]) ∧
    RestApp.parsePath (buildPath ["collection", "X", "note", "Y", "stats"]) =
      .ok (some "note", "stats", ["X", "Y"]) ∧
    RestApp.parsePath (buildPath ["collection", "X", "note", "Y", "card", "Z", "stats"]) =
      .ok (some "card", "stats", ["X", "Y", "Z"]) :=
  c4_path_round_trip "X" "Y" "Z" "stats" "note"
    (by decide) (by decide) (by decide) (by decide) (by decide)

/-- C9: a five-segment path `collection/x/t/y/card` with `t` one of the
middle types resolves with `card` consumed as the operation name, not as a
type expecting an identifier: the walk stops once fewer than two segments
remain, so the result is the middle type, operation `card`, and the two
identifiers. -/
theorem c9_trailing_type_is_operation (t x y : String)
    (ht : t ∈ ["model", "note", "deck"]) (hx : '/' ∉ x.data) (hy : '/' ∉ y.data) :
    RestApp.parsePath (buildPath ["collection", x, t, y, "card"]) =
      .ok (some t, "card", [x, y]) := by
  have hcol : ('/' : Char) ∉ "collection".data := by decide
  have hcard : ('/' : Char) ∉ "card".data := by decide
  have ht' : ('/' : Char) ∉ t.data := by
    simp only [List.mem_cons, List.not_mem_nil, or_false] at ht
    rcases ht with rfl | rfl | rfl <;> decide
  rw [parsePath_buildPath "collection" [x, t, y, "card"] (by decide) ?_]
  · simp [parsePathParts, loopSlots, RestApp.handler_types, ht]
  · intro u hu
    simp only [List.mem_cons, List.not_mem_nil, or_false] at hu
    rcases hu with rfl | rfl | rfl | rfl | rfl
    exacts [hcol, hx, ht', hy, hcard]

/-- C9 witness: the ambiguity resolution at concrete identifiers. -/
theorem c9_witness :
    RestApp.parsePath (buildPath ["collection", "X", "deck", "Y", "card"]) =
      .ok (some "deck", "card", ["X", "Y"]) :=
  c9_trailing_type_is_operation "deck" "X" "Y" (by decide) (by decide) (by decide)
